import Mathlib

/-!
Verification of the dependency externalization and caching bundler
(`src/scripts/bundles/sys-node.ts`).

The embedding models:
* the module classifier implemented by the webpack `externals` hook,
* the per-job bundler `bundleExternal` as a pure function from an initial
  file-system state (plus an opaque backend outcome and minifier) to a run
  record carrying the settled promise result, the final file system and
  event flags (cache consulted / read / written, number of backend calls),
* the orchestrator `sysNodeExternalBundles` aggregating concurrent jobs
  with `Promise.all` semantics.
-/

namespace Stencil

/-- `join(dir, name)` from node's `path`, as used in the bundler. -/
def pathJoin (a b : String) : String := a ++ "/" ++ b

/-- A file system: maps an absolute path to the file bytes, when present. -/
def FS : Type := String → Option String

/-- `fs.writeFile(p, v)` / webpack emitting a file. -/
def fsWrite (fs : FS) (p v : String) : FS :=
  fun q => if q = p then some v else fs q

/-- `fs.copyFile(src, dst)`: verbatim byte copy (both call sites in the
source copy a file that exists; a missing source is modelled as a no-op). -/
def fsCopyFile (fs : FS) (src dst : String) : FS :=
  match fs src with
  | some v => fsWrite fs dst v
  | none => fs

/-- Outcome of the webpack `externals` hook for one requested module id:
`callback(null, undefined)` (bundle it), `callback(null, newId)` where the
id differs from the request (redirect, marked external), or
`callback(null, request)` (pass through as external). -/
inductive Classification
  | internal
  | redirect (moduleId : String)
  | external (moduleId : String)
deriving DecidableEq

/-- The hard-coded whitelist `new Set(['child_process', 'os', 'typescript'])`
built inside `bundleExternal`. -/
def whitelist : List String := ["child_process", "os", "typescript"]

/-- Character-level string prefix test, used to express the regex below. -/
def strHasPrefix (p s : String) : Bool := List.isPrefixOf p.data s.data

/-- The test `request.match(/^(\.\x7b0,2\x7d)\//)`: the regex accepts exactly
the requests beginning with `/`, `./` or `../`. -/
def isPathShaped (request : String) : Bool :=
  strHasPrefix "/" request || strHasPrefix "./" request ||
    strHasPrefix "../" request

/-- The `externals(_context, request, callback)` hook of the webpack config in
`bundleExternal`. `resolvable` models which ids `require.resolve` can resolve;
a `.error` result models the exception `require.resolve` throws on an
unresolvable id, which aborts classification instead of producing a result. -/
def externals (resolvable : String → Bool) (_context : String) (request : String) :
    Except String Classification :=
  if isPathShaped request then
    Except.ok Classification.internal
  else if request = "@stencil/core/mock-doc" then
    Except.ok (Classification.redirect "../../mock-doc")
  else if request ∈ whitelist then
    if resolvable request then Except.ok (Classification.external request)
    else Except.error request
  else
    Except.ok Classification.internal

/-- What the webpack backend reports to the `bundleExternal` callback:
a hard error `err` (with its `err.message`), a completed run whose stats
carry at least one diagnostic (`stats.hasErrors()`), or a clean run that
emitted the artifact bytes to the output file. -/
inductive BackendResult
  | hardError (msg : String)
  | diagnostics (first : String) (rest : List String)
  | success (artifact : String)

/-- Whether the backend completed without hard error or diagnostics. -/
def BackendResult.isSuccess : BackendResult → Bool
  | .success _ => true
  | _ => false

/-- The errors a bundle job can reject with: the webpack `err` object, the
joined diagnostic text `info.errors.join('\n')`, or `minifyResults.error`. -/
inductive BundleError
  | compileError (msg : String)
  | bundleDiagnosticError (msg : String)
  | minifyError (msg : String)
deriving DecidableEq

/-- How the promise of one job settles. `stuck` models a promise that never
settles (the callback path that dereferences an absent `stats` object when
`err` is present but has an empty message). -/
inductive Settled
  | resolved
  | rejected (e : BundleError)
  | stuck
deriving DecidableEq

/-- Result object of `terser.minify`: an optional `error` and the `code`. -/
structure MinifyResult where
  error : Option String
  code : String

/-- One run of `bundleExternal`: the settled promise, the final file system,
how many times the webpack backend was invoked, and whether the cache file
was existence-checked, read (copied to the output) or written. -/
structure BundleRun where
  result : Settled
  fs : FS
  compileCount : Nat
  cacheChecked : Bool
  cacheRead : Bool
  cacheWritten : Bool

/-- `bundleExternal(opts, outputDir, cachedDir, entryFileName)`: the cache
fast path runs only when `opts.isProd` is false; otherwise webpack runs and
its callback rejects on a hard error or on diagnostics, and on success either
minifies in place (production) or copies the artifact into the cache. -/
def bundleExternal (isProd : Bool) (outputDir cachedDir entryFileName : String)
    (backend : BackendResult) (minify : String → MinifyResult) (fs : FS) :
    BundleRun :=
  let outputFile := pathJoin outputDir entryFileName
  let cachedFile := pathJoin cachedDir entryFileName
  if !isProd && (fs cachedFile).isSome then
    { result := Settled.resolved
      fs := fsCopyFile fs cachedFile outputFile
      compileCount := 0
      cacheChecked := true
      cacheRead := true
      cacheWritten := false }
  else
    match backend with
    | BackendResult.hardError msg =>
        { result :=
            if msg = "" then Settled.stuck
            else Settled.rejected (BundleError.compileError msg)
          fs := fs
          compileCount := 1
          cacheChecked := !isProd
          cacheRead := false
          cacheWritten := false }
    | BackendResult.diagnostics first rest =>
        { result :=
            Settled.rejected
              (BundleError.bundleDiagnosticError
                (String.intercalate "\n" (first :: rest)))
          fs := fs
          compileCount := 1
          cacheChecked := !isProd
          cacheRead := false
          cacheWritten := false }
    | BackendResult.success artifact =>
        let fs1 := fsWrite fs outputFile artifact
        if isProd then
          let code := (fs1 outputFile).getD ""
          match (minify code).error with
          | some e =>
              { result := Settled.rejected (BundleError.minifyError e)
                fs := fs1
                compileCount := 1
                cacheChecked := false
                cacheRead := false
                cacheWritten := false }
          | none =>
              { result := Settled.resolved
                fs := fsWrite fs1 outputFile (minify code).code
                compileCount := 1
                cacheChecked := false
                cacheRead := false
                cacheWritten := false }
        else
          { result := Settled.resolved
            fs := fsCopyFile fs1 outputFile cachedFile
            compileCount := 1
            cacheChecked := true
            cacheRead := false
            cacheWritten := true }

/-- The build configuration the bundler reads (`BuildOptions`), with the
per-target output directories of `opts.output` flattened in. -/
structure BuildOptions where
  srcDir : String
  transpiledDir : String
  sysNodeDir : String
  devServerDir : String
  nodeModulesDir : String
  bundleHelpersDir : String
  isProd : Bool

/-- `Promise.all` over the settled states of the started jobs: rejects with
the error of the (first) rejecting job, resolves when every job resolves,
and never settles when some job never settles and none rejects. -/
def settleStep (s r : Settled) : Settled :=
  match s, r with
  | Settled.rejected e, _ => Settled.rejected e
  | Settled.resolved, r => r
  | Settled.stuck, Settled.rejected e => Settled.rejected e
  | Settled.stuck, _ => Settled.stuck

def promiseAll : List Settled → Settled
  | [] => Settled.resolved
  | s :: rest => settleStep s (promiseAll rest)

/-- The error of a rejected job, if any. -/
def settledError : Settled → Option BundleError
  | Settled.rejected e => some e
  | _ => none

/-- The error of the first rejected job in the batch, if any. -/
def firstRejection (l : List Settled) : Option BundleError :=
  l.findSome? settledError

/-- Observable steps of the orchestrator: ensuring the cache directory
exists, and starting one bundle job. -/
inductive Event
  | ensureDir
  | jobStart (entry : String)
deriving DecidableEq

/-- The seven `(outputDir, entryFileName)` jobs started by
`sysNodeExternalBundles`, in source order. -/
def sysNodeBundleJobs (opts : BuildOptions) : List (String × String) :=
  [(opts.sysNodeDir, "autoprefixer.js"),
   (opts.sysNodeDir, "glob.js"),
   (opts.sysNodeDir, "graceful-fs.js"),
   (opts.sysNodeDir, "node-fetch.js"),
   (opts.sysNodeDir, "prompts.js"),
   (opts.devServerDir, "open-in-editor-api.js"),
   (opts.devServerDir, "ws.js")]

/-- One run of the orchestrator: every job's settled state, the aggregated
`Promise.all` result, and the ordered trace of orchestrator steps. -/
structure BatchRun where
  jobResults : List Settled
  result : Settled
  trace : List Event

/-- `sysNodeExternalBundles(opts)`: ensures the shared cache directory
exists, then starts all bundle jobs concurrently against the same initial
file system (their files are disjoint per entry name) and joins them with
`Promise.all`. `backendFor` gives the webpack outcome of each entry. -/
def sysNodeExternalBundles (opts : BuildOptions)
    (backendFor : String → BackendResult) (minify : String → MinifyResult)
    (fs : FS) : BatchRun :=
  let cachedDir := pathJoin opts.transpiledDir "sys-node-bundle-cache"
  let jobs := sysNodeBundleJobs opts
  let runs := jobs.map fun j =>
    bundleExternal opts.isProd j.1 cachedDir j.2 (backendFor j.2) minify fs
  { jobResults := runs.map BundleRun.result
    result := promiseAll (runs.map BundleRun.result)
    trace := Event.ensureDir :: jobs.map fun j => Event.jobStart j.2 }

/-! ## Classifier claims -/

/-- C3: every requested module identifier beginning with `./`, `../` or `/`
is classified Internal by the externals hook — never External, never
Redirect. -/
theorem c3_path_shaped_is_internal (resolvable : String → Bool)
    (ctx request : String) (h : isPathShaped request = true) :
    externals resolvable ctx request = Except.ok Classification.internal := by
  simp [externals, h]

theorem c3_path_shaped_is_internal_witness :
    isPathShaped "./graceful-fs.js" = true ∧
    externals (fun _ => false) "" "./graceful-fs.js" =
      Except.ok Classification.internal :=
  ⟨by decide, c3_path_shaped_is_internal (fun _ => false) "" "./graceful-fs.js"
    (by decide)⟩

/-- C4: every identifier of the fixed whitelist `child_process`, `os`,
`typescript` is classified External when the environment can resolve it, and
classification aborts with the resolution failure when it cannot. -/
theorem c4_whitelist_resolution (resolvable : String → Bool)
    (ctx request : String) (h : request ∈ whitelist) :
    externals resolvable ctx request =
      if resolvable request then Except.ok (Classification.external request)
      else Except.error request := by
  have hmem : request = "child_process" ∨ request = "os" ∨
      request = "typescript" := by simpa [whitelist] using h
  rcases hmem with rfl | rfl | rfl
  · have hp : isPathShaped "child_process" = false := by decide
    cases hres : resolvable "child_process" <;>
      simp [externals, whitelist, hp, hres]
  · have hp : isPathShaped "os" = false := by decide
    cases hres : resolvable "os" <;> simp [externals, whitelist, hp, hres]
  · have hp : isPathShaped "typescript" = false := by decide
    cases hres : resolvable "typescript" <;>
      simp [externals, whitelist, hp, hres]

theorem c4_whitelist_resolution_witness :
    ("typescript" ∈ whitelist ∧
      externals (fun _ => true) "" "typescript" =
        Except.ok (Classification.external "typescript")) ∧
    externals (fun _ => false) "" "typescript" = Except.error "typescript" :=
  ⟨⟨by decide, c4_whitelist_resolution (fun _ => true) "" "typescript"
      (by decide)⟩,
    c4_whitelist_resolution (fun _ => false) "" "typescript" (by decide)⟩

/-- C6: the request `@stencil/core/mock-doc` is classified as a Redirect to
the fixed external module id `../../mock-doc`, whatever the environment can
resolve (the redirect rule fires before the whitelist resolution check), and
any path-shaped request is classified Internal first (the path-shape rule
precedes the redirect rule). -/
theorem c6_mock_doc_redirect (resolvable : String → Bool) (ctx : String) :
    externals resolvable ctx "@stencil/core/mock-doc" =
      Except.ok (Classification.redirect "../../mock-doc") ∧
    ∀ request, isPathShaped request = true →
      externals resolvable ctx request = Except.ok Classification.internal := by
  constructor
  · have hp : isPathShaped "@stencil/core/mock-doc" = false := by decide
    simp [externals, hp]
  · intro request h
    simp [externals, h]

/-- C10: the externals hook is deterministic and request-only — its outcome
does not depend on the `_context` argument (and, being a pure function of
the request and the resolvability of the whitelisted ids, not on prior
invocations). -/
theorem c10_classifier_context_free (resolvable : String → Bool)
    (ctx1 ctx2 request : String) :
    externals resolvable ctx1 request = externals resolvable ctx2 request :=
  rfl

/-! ## Bundle-job claims -/

/-- C1: a production bundle job never consults the cache — no existence
check, no cache read — and always invokes the compile backend, whatever the
initial file system holds (in particular even when a file exists at
`cachedDir/entryFileName`). -/
theorem c1_prod_never_reads_cache (outputDir cachedDir entry : String)
    (backend : BackendResult) (minify : String → MinifyResult) (fs : FS) :
    (bundleExternal true outputDir cachedDir entry backend minify
        fs).cacheChecked = false ∧
    (bundleExternal true outputDir cachedDir entry backend minify
        fs).cacheRead = false ∧
    (bundleExternal true outputDir cachedDir entry backend minify
        fs).compileCount = 1 := by
  cases backend with
  | hardError msg => simp [bundleExternal]
  | diagnostics first rest => simp [bundleExternal]
  | success artifact =>
      simp [bundleExternal]
      split <;> simp

/-- C2: the cache file is written exactly on the success path of a
non-production compile — that is, when the job is not production, the cache
entry was absent (so the backend ran), and the backend succeeded. Every
failure path and every production run finishes without a cache write. -/
theorem c2_cache_write_only_after_success (isProd : Bool)
    (outputDir cachedDir entry : String) (backend : BackendResult)
    (minify : String → MinifyResult) (fs : FS) :
    (bundleExternal isProd outputDir cachedDir entry backend minify
        fs).cacheWritten =
      (!isProd && (fs (pathJoin cachedDir entry)).isNone &&
        backend.isSuccess) := by
  cases isProd <;> cases backend <;>
    cases hfs : fs (pathJoin cachedDir entry) <;>
      simp [bundleExternal, BackendResult.isSuccess, hfs] <;> split <;> simp

/-- C5: a non-production job whose cache entry exists performs no
compile-backend invocation, resolves, and leaves the output file a
byte-for-byte copy of the (unchanged) cache file. -/
theorem c5_cache_hit_skips_compile (outputDir cachedDir entry : String)
    (backend : BackendResult) (minify : String → MinifyResult) (fs : FS)
    (b : String) (h : fs (pathJoin cachedDir entry) = some b) :
    (bundleExternal false outputDir cachedDir entry backend minify
        fs).compileCount = 0 ∧
    (bundleExternal false outputDir cachedDir entry backend minify
        fs).result = Settled.resolved ∧
    (bundleExternal false outputDir cachedDir entry backend minify
        fs).fs (pathJoin outputDir entry) = some b ∧
    (bundleExternal false outputDir cachedDir entry backend minify
        fs).fs (pathJoin cachedDir entry) = some b := by
  simp [bundleExternal, h, fsCopyFile, fsWrite]

theorem c5_cache_hit_skips_compile_witness :
    (bundleExternal false "www/sys/node" "cache" "glob.js"
        (BackendResult.hardError "boom") (fun c => ⟨none, c⟩)
        (fun p => if p = "cache/glob.js" then some "precompiled"
          else none)).compileCount = 0 ∧
    (bundleExternal false "www/sys/node" "cache" "glob.js"
        (BackendResult.hardError "boom") (fun c => ⟨none, c⟩)
        (fun p => if p = "cache/glob.js" then some "precompiled"
          else none)).result = Settled.resolved ∧
    (bundleExternal false "www/sys/node" "cache" "glob.js"
        (BackendResult.hardError "boom") (fun c => ⟨none, c⟩)
        (fun p => if p = "cache/glob.js" then some "precompiled" else none)).fs
        (pathJoin "www/sys/node" "glob.js") = some "precompiled" ∧
    (bundleExternal false "www/sys/node" "cache" "glob.js"
        (BackendResult.hardError "boom") (fun c => ⟨none, c⟩)
        (fun p => if p = "cache/glob.js" then some "precompiled" else none)).fs
        (pathJoin "cache" "glob.js") = some "precompiled" :=
  c5_cache_hit_skips_compile "www/sys/node" "cache" "glob.js"
    (BackendResult.hardError "boom") (fun c => ⟨none, c⟩)
    (fun p => if p = "cache/glob.js" then some "precompiled" else none)
    "precompiled" (by simp [pathJoin])

/-- C7: when the backend reports a hard failure (an `err` with a message),
the job's promise is rejected with that error as the compile failure, and
the backend is invoked exactly once — the job is not retried. -/
theorem c7_hard_error_rejects (isProd : Bool)
    (outputDir cachedDir entry : String) (minify : String → MinifyResult)
    (fs : FS) (msg : String) (hmsg : msg ≠ "")
    (hmiss : fs (pathJoin cachedDir entry) = none) :
    (bundleExternal isProd outputDir cachedDir entry
        (BackendResult.hardError msg) minify fs).result =
      Settled.rejected (BundleError.compileError msg) ∧
    (bundleExternal isProd outputDir cachedDir entry
        (BackendResult.hardError msg) minify fs).compileCount = 1 := by
  cases isProd <;> simp [bundleExternal, hmiss, hmsg]

theorem c7_hard_error_rejects_witness :
    (bundleExternal true "www/sys/node" "cache" "ws.js"
        (BackendResult.hardError "spawn failed") (fun c => ⟨none, c⟩)
        (fun _ => none)).result =
      Settled.rejected (BundleError.compileError "spawn failed") ∧
    (bundleExternal true "www/sys/node" "cache" "ws.js"
        (BackendResult.hardError "spawn failed") (fun c => ⟨none, c⟩)
        (fun _ => none)).compileCount = 1 :=
  c7_hard_error_rejects true "www/sys/node" "cache" "ws.js"
    (fun c => ⟨none, c⟩) (fun _ => none) "spawn failed" (by simp) rfl

/-- C8: when a production compile succeeds, the artifact is read back and
minified; if the minifier reports an error the job is rejected with that
error and the output file keeps the unminified artifact bytes (it is not
overwritten); otherwise the job resolves and the output file holds the
minified bytes. In both cases no cache write and no cache read occur. -/
theorem c8_prod_minify_finalize (outputDir cachedDir entry : String)
    (minify : String → MinifyResult) (fs : FS) (artifact : String) :
    (bundleExternal true outputDir cachedDir entry
        (BackendResult.success artifact) minify fs).cacheWritten = false ∧
    (bundleExternal true outputDir cachedDir entry
        (BackendResult.success artifact) minify fs).cacheRead = false ∧
    (match (minify artifact).error with
      | some e =>
          (bundleExternal true outputDir cachedDir entry
              (BackendResult.success artifact) minify fs).result =
            Settled.rejected (BundleError.minifyError e) ∧
          (bundleExternal true outputDir cachedDir entry
              (BackendResult.success artifact) minify fs).fs
              (pathJoin outputDir entry) = some artifact
      | none =>
          (bundleExternal true outputDir cachedDir entry
              (BackendResult.success artifact) minify fs).result =
            Settled.resolved ∧
          (bundleExternal true outputDir cachedDir entry
              (BackendResult.success artifact) minify fs).fs
              (pathJoin outputDir entry) = some (minify artifact).code) := by
  cases herr : (minify artifact).error <;>
    simp [bundleExternal, fsWrite, herr]

/-! ## Orchestrator claims -/

/-- `Promise.all` characterized: it rejects with the first rejecting job's
error; otherwise it resolves exactly when every job resolves. -/
theorem promiseAll_characterization (l : List Settled) :
    promiseAll l =
      match firstRejection l with
      | some e => Settled.rejected e
      | none =>
          if l.all (fun s => decide (s = Settled.resolved)) then
            Settled.resolved
          else Settled.stuck := by
  induction l with
  | nil => rfl
  | cons s rest ih =>
      rcases hfr : List.findSome? settledError rest with _ | e <;>
        rcases hall : rest.all (fun s => decide (s = Settled.resolved)) <;>
          cases s <;>
            simp [promiseAll, settleStep, firstRejection, settledError, ih,
              hfr, hall]

/-- C9: the orchestrator ensures the cache directory exists exactly once,
before any job starts; the batch result rejects with the error of the
(first) failing job when any job fails — sibling jobs still run and settle
but are not reported — and resolves when every job resolves. -/
theorem c9_batch_fail_fast (opts : BuildOptions)
    (backendFor : String → BackendResult) (minify : String → MinifyResult)
    (fs : FS) :
    (sysNodeExternalBundles opts backendFor minify fs).result =
      (match firstRejection
          (sysNodeExternalBundles opts backendFor minify fs).jobResults with
        | some e => Settled.rejected e
        | none =>
            if (sysNodeExternalBundles opts backendFor minify
                fs).jobResults.all
                (fun s => decide (s = Settled.resolved)) then
              Settled.resolved
            else Settled.stuck) ∧
    (sysNodeExternalBundles opts backendFor minify fs).trace =
      Event.ensureDir ::
        (sysNodeBundleJobs opts).map (fun j => Event.jobStart j.2) :=
  ⟨promiseAll_characterization _, rfl⟩

end Stencil
